import Mathlib

/-!
Verification of the compatibility-scoring core of the gym-buddy matching
application.  The definitions below are a shallow embedding of
`src/utils/matchingUtils.ts` (the additive denominator-25 scorer
`calculateMatchScore`, the ranking function `getTopMatches` and the
display-label tables) and of the weighted-ratio scorer
`calculateCompatibilityScore` from `src/pages/Matches.tsx`.

JavaScript numbers are modelled as exact rationals (every quantity that
occurs in the scorers is either a small integer or a ratio of small
integers), JavaScript arrays as Lean lists, nullable strings as
`Option String`.  `Number.prototype.toFixed(2)` followed by `parseFloat`
is modelled as exact rounding to two decimal places.
-/

namespace GymBuddy

/-- The decimal digit character for a single digit value `n < 10`. -/
def digitChar (n : Nat) : Char := Char.ofNat (48 + n)

/-- Fuel-driven decimal rendering: digits of `n`, most significant first.
This is how JavaScript template interpolation renders the (always integral
and nonnegative) array lengths that appear inside reason strings. -/
def natDigitsGo : Nat → Nat → List Char
  | 0, _ => []
  | fuel + 1, n =>
    if n < 10 then [digitChar n]
    else natDigitsGo fuel (n / 10) ++ [digitChar (n % 10)]

/-- Decimal rendering of a natural number as a string. -/
def natToString (n : Nat) : String := String.mk (natDigitsGo (n + 1) n)

/-- The apostrophe character as a one-character string. -/
def apos : String := String.singleton (Char.ofNat 39)

/-- JavaScript `parseFloat(x.toFixed(2))` on an exact rational value:
rounding to two decimal places (round half away from zero for the
nonnegative values that occur in the scorers). -/
def jsToFixed2 (q : ℚ) : ℚ := ((round (q * 100) : ℤ) : ℚ) / 100

/-- `Profile` row type from `types/supabase.ts`. -/
structure Profile where
  id : String
  username : String
  full_name : Option String
  avatar_url : Option String
  bio : Option String
  created_at : String
  updated_at : String
  deriving Repr, DecidableEq

/-- `FitnessProfile` row type from `types/supabase.ts`.  The
`fitness_level` and `fitness_goal` fields are string-literal union types
in TypeScript; they are modelled as plain strings because the scorer only
compares them for equality and interpolates them into reason strings
(with a capitalisation fallback for unmapped values). -/
structure FitnessProfile where
  id : String
  fitness_level : String
  fitness_style : List String
  preferred_time_slots : List String
  location : String
  fitness_goal : String
  gym_name : Option String
  availability_days : List String
  created_at : String
  updated_at : String
  deriving Repr, DecidableEq

/-- `MatchScore` result record returned by `calculateMatchScore`. -/
structure MatchScore where
  userId : String
  profile : Profile
  fitnessProfile : FitnessProfile
  compatibilityScore : ℚ
  matchReasons : List String
  deriving Repr, DecidableEq

/-- `goal.charAt(0).toUpperCase() + goal.slice(1)` fallback used by the
display-label tables. -/
def capitalizeFirst (s : String) : String :=
  match s.data with
  | [] => ""
  | c :: cs => String.mk (c.toUpper :: cs)

/-- `formatGoal` from `matchingUtils.ts`: display-label table with a
capitalisation fallback for unmapped goals. -/
def formatGoal (goal : String) : String :=
  if goal = "bulking" then "Muscle building"
  else if goal = "cutting" then "Fat loss"
  else if goal = "maintenance" then "Maintaining fitness"
  else if goal = "endurance" then "Improving endurance"
  else if goal = "flexibility" then "Increasing flexibility"
  else if goal = "general" then "General fitness"
  else capitalizeFirst goal

/-- `formatStyle` from `matchingUtils.ts`. -/
def formatStyle (style : String) : String :=
  if style = "cardio" then "Cardio"
  else if style = "strength" then "Strength Training"
  else if style = "functional" then "Functional Training"
  else if style = "hiit" then "HIIT"
  else if style = "yoga" then "Yoga"
  else if style = "pilates" then "Pilates"
  else if style = "calisthenics" then "Calisthenics"
  else if style = "crossfit" then "CrossFit"
  else if style = "swimming" then "Swimming"
  else if style = "running" then "Running"
  else capitalizeFirst style

/-- `currentUserFitnessProfile.fitness_style.filter(style =>
otherUserFitnessProfile.fitness_style.includes(style))`. -/
def sharedStyles (a b : FitnessProfile) : List String :=
  a.fitness_style.filter (fun style => decide (style ∈ b.fitness_style))

/-- Shared preferred time slots, by the same `filter`/`includes` pattern. -/
def sharedTimeSlots (a b : FitnessProfile) : List String :=
  a.preferred_time_slots.filter (fun slot => decide (slot ∈ b.preferred_time_slots))

/-- Shared availability days, by the same `filter`/`includes` pattern. -/
def sharedDays (a b : FitnessProfile) : List String :=
  a.availability_days.filter (fun day => decide (day ∈ b.availability_days))

/-- JavaScript `String.prototype.toLowerCase()`: lower-case the string
character by character (the strings compared in this application are
ordinary gym names and city names). -/
def jsToLower (s : String) : String := String.mk (s.data.map Char.toLower)

/-- The gym-name condition of `calculateMatchScore`:
`a.gym_name && b.gym_name && a.gym_name.toLowerCase() ===
b.gym_name.toLowerCase()`.  JavaScript truthiness makes both the null and
the empty string fail the first two conjuncts. -/
def gymNamesMatch (a b : FitnessProfile) : Bool :=
  match a.gym_name, b.gym_name with
  | some g1, some g2 => !g1.isEmpty && !g2.isEmpty && (jsToLower g1 == jsToLower g2)
  | _, _ => false

/-- Points contributed by the fitness-goal criterion. -/
def goalPoints (a b : FitnessProfile) : ℕ :=
  if a.fitness_goal = b.fitness_goal then 3 else 0

/-- Points contributed by the style-overlap criterion. -/
def stylePoints (a b : FitnessProfile) : ℕ :=
  if 0 < (sharedStyles a b).length then (sharedStyles a b).length * 3 else 0

/-- Points contributed by the time-slot criterion (capped at 6). -/
def timePoints (a b : FitnessProfile) : ℕ :=
  if 0 < (sharedTimeSlots a b).length then min ((sharedTimeSlots a b).length * 2) 6 else 0

/-- Points contributed by the location criterion. -/
def locationPoints (a b : FitnessProfile) : ℕ :=
  if a.location = b.location then 2 else 0

/-- Points contributed by the gym-name criterion. -/
def gymPoints (a b : FitnessProfile) : ℕ :=
  if gymNamesMatch a b then 3 else 0

/-- Points contributed by the fitness-level criterion. -/
def levelPoints (a b : FitnessProfile) : ℕ :=
  if a.fitness_level = b.fitness_level then 1 else 0

/-- Points contributed by the availability-day criterion (capped at 8). -/
def dayPoints (a b : FitnessProfile) : ℕ :=
  if 0 < (sharedDays a b).length then min ((sharedDays a b).length * 2) 8 else 0

/-- The raw integer score accumulated by `calculateMatchScore`, in the
order the source mutates `score`: goal, style, time, location, gym,
level, availability. -/
def rawScore (a b : FitnessProfile) : ℕ :=
  goalPoints a b + stylePoints a b + timePoints a b + locationPoints a b +
    gymPoints a b + levelPoints a b + dayPoints a b

/-- Reason string pushed by the goal criterion. -/
def goalReason (a : FitnessProfile) : String :=
  "You both have the same fitness goal: " ++ formatGoal a.fitness_goal

/-- Reason string pushed by the style criterion. -/
def styleReason (a b : FitnessProfile) : String :=
  "You share " ++ (natToString (sharedStyles a b).length ++
    (" training styles: " ++ String.intercalate ", " ((sharedStyles a b).map formatStyle)))

/-- Reason string pushed by the time-slot criterion. -/
def timeReason (a b : FitnessProfile) : String :=
  "You have " ++ (natToString (sharedTimeSlots a b).length ++ " compatible workout times")

/-- Reason string pushed by the location criterion. -/
def locationReason (a : FitnessProfile) : String :=
  ("You" ++ apos ++ "re both in ") ++ a.location

/-- Reason string pushed by the gym criterion (only pushed when
`gymNamesMatch`, in which case `a.gym_name` is a nonempty string). -/
def gymReason (a : FitnessProfile) : String :=
  "You both work out at " ++ a.gym_name.getD ""

/-- Reason string pushed by the level criterion. -/
def levelReason (a : FitnessProfile) : String :=
  ("You" ++ apos ++ "re both at a ") ++ (a.fitness_level ++ " fitness level")

/-- Reason string pushed by the availability criterion. -/
def dayReason (a b : FitnessProfile) : String :=
  "You share " ++ (natToString (sharedDays a b).length ++ " days of availability")

/-- The `matchReasons` array accumulated by `calculateMatchScore`:
each criterion pushes its reason exactly when it fires, in source order. -/
def matchReasonsList (a b : FitnessProfile) : List String :=
  (if a.fitness_goal = b.fitness_goal then [goalReason a] else []) ++
  ((if 0 < (sharedStyles a b).length then [styleReason a b] else []) ++
  ((if 0 < (sharedTimeSlots a b).length then [timeReason a b] else []) ++
  ((if a.location = b.location then [locationReason a] else []) ++
  ((if gymNamesMatch a b then [gymReason a] else []) ++
  ((if a.fitness_level = b.fitness_level then [levelReason a] else []) ++
  (if 0 < (sharedDays a b).length then [dayReason a b] else []))))))

/-- `calculateMatchScore` from `matchingUtils.ts`: the additive scorer.
The raw integer total is normalised by the fixed constant 25 and rounded
to two decimal places via `toFixed(2)`/`parseFloat`. -/
def calculateMatchScore (currentUserProfile : Profile)
    (currentUserFitnessProfile : FitnessProfile)
    (otherUserProfile : Profile)
    (otherUserFitnessProfile : FitnessProfile) : MatchScore :=
  { userId := otherUserProfile.id
    profile := otherUserProfile
    fitnessProfile := otherUserFitnessProfile
    compatibilityScore :=
      jsToFixed2 ((rawScore currentUserFitnessProfile otherUserFitnessProfile : ℚ) / 25)
    matchReasons := matchReasonsList currentUserFitnessProfile otherUserFitnessProfile }

/-- The comparator `(a, b) => b.compatibilityScore - a.compatibilityScore`
passed to `Array.prototype.sort`, i.e. descending order of score. -/
def matchDescLe (a b : MatchScore) : Bool :=
  decide (b.compatibilityScore ≤ a.compatibilityScore)

/-- `getTopMatches` from `matchingUtils.ts`: copy the array, sort it by
compatibility score descending, take the first `limit` (default 3).  The
source parameter name `matches` is a Lean keyword, hence `ms`. -/
def getTopMatches (ms : List MatchScore) (limit : Nat := 3) : List MatchScore :=
  (ms.mergeSort matchDescLe).take limit

/-- The gym/location branch of `calculateCompatibilityScore` in
`Matches.tsx`: gym names match (truthy and case-insensitively equal)
gives 2, else case-insensitively equal locations give 1, else 0. -/
def gymLocScore (u o : FitnessProfile) : ℚ :=
  if gymNamesMatch u o then 2
  else if jsToLower u.location = jsToLower o.location then 1
  else 0

/-- `calculateCompatibilityScore` from `Matches.tsx`: the weighted-ratio
scorer.  Returns `none` exactly when the JavaScript original produces
`NaN`, i.e. when a shared-count is divided by `Math.max` of two zero
lengths (`0 / 0`); otherwise the exact rational value of
`parseFloat((score / totalFactors).toFixed(2))`. -/
def calculateCompatibilityScore (u o : FitnessProfile) : Option ℚ :=
  let styleDen : ℕ := max u.fitness_style.length o.fitness_style.length
  let slotDen : ℕ := max u.preferred_time_slots.length o.preferred_time_slots.length
  if styleDen = 0 ∨ slotDen = 0 then none
  else
    let levelScore : ℚ := if u.fitness_level = o.fitness_level then 1 else 0
    let styleScore : ℚ := ((sharedStyles u o).length : ℚ) / (styleDen : ℚ) * 3
    let dayScore : ℚ := ((sharedDays u o).length : ℚ) / 7 * 2
    let slotScore : ℚ := ((sharedTimeSlots u o).length : ℚ) / (slotDen : ℚ) * 2
    let goalScore : ℚ := if u.fitness_goal = o.fitness_goal then 3 else 0
    let goalFactors : ℕ := if u.fitness_goal = o.fitness_goal then 3 else 0
    let score : ℚ := levelScore + styleScore + dayScore + slotScore + gymLocScore u o + goalScore
    let totalFactors : ℕ := 1 + 3 + 2 + 2 + 2 + goalFactors
    some (jsToFixed2 (score / (totalFactors : ℚ)))

/-! Concrete profile records used by the counterexamples, exceed-1
instances and witnesses below. -/

/-- A concrete `Profile` row. -/
def profA : Profile := ⟨"user-a", "alice", none, none, none, "", ""⟩

/-- A second concrete `Profile` row. -/
def profB : Profile := ⟨"user-b", "bob", none, none, none, "", ""⟩

/-- The "self" record of the concrete scenario in the spec (also used as
a witness input elsewhere). -/
def fitC4self : FitnessProfile :=
  ⟨"user-a", "intermediate", ["strength", "hiit"], ["morning", "evening"],
    "Austin, TX", "cutting", none, ["mon", "wed", "fri"], "", ""⟩

/-- The "other" record of the concrete scenario in the spec. -/
def fitC4other : FitnessProfile :=
  ⟨"user-b", "intermediate", ["strength", "yoga"], ["morning"],
    "Austin, TX", "cutting", none, ["mon", "fri"], "", ""⟩

/-- A record sharing location and (case-insensitively) gym name with
`fitC1b` and nothing else. -/
def fitC1a : FitnessProfile :=
  ⟨"user-a", "beginner", ["cardio"], ["morning"], "Austin, TX", "bulking",
    some "Golds Gym", ["mon"], "", ""⟩

/-- Counterpart of `fitC1a`: same location, same gym name up to case. -/
def fitC1b : FitnessProfile :=
  ⟨"user-b", "advanced", ["yoga"], ["evening"], "Austin, TX", "cutting",
    some "GOLDS GYM", ["tue"], "", ""⟩

/-- First record of the first pair used to separate the two scorers. -/
def fitC2a1 : FitnessProfile :=
  ⟨"user-a", "beginner", ["cardio"], ["morning"], "Austin", "bulking",
    none, ["mon"], "", ""⟩

/-- Second record of the first pair used to separate the two scorers. -/
def fitC2b1 : FitnessProfile :=
  ⟨"user-b", "beginner", ["cardio"], ["morning"], "Austin", "bulking",
    none, ["tue"], "", ""⟩

/-- First record of the second pair (five shared styles, nothing else). -/
def fitC2a2 : FitnessProfile :=
  ⟨"user-a", "beginner", ["cardio", "strength", "hiit", "yoga", "running"],
    ["morning"], "Austin", "bulking", none, ["mon"], "", ""⟩

/-- Second record of the second pair (five shared styles, nothing else). -/
def fitC2b2 : FitnessProfile :=
  ⟨"user-b", "advanced", ["cardio", "strength", "hiit", "yoga", "running"],
    ["evening"], "Dallas", "cutting", none, ["tue"], "", ""⟩

/-- A record sharing nine styles with `fitC3b` and nothing else, driving
the normalised score above 1. -/
def fitC3a : FitnessProfile :=
  ⟨"user-a", "beginner",
    ["cardio", "strength", "functional", "hiit", "yoga", "pilates",
      "calisthenics", "crossfit", "swimming"],
    ["morning"], "Austin", "bulking", none, ["mon"], "", ""⟩

/-- Counterpart of `fitC3a` with the same nine styles. -/
def fitC3b : FitnessProfile :=
  ⟨"user-b", "advanced",
    ["cardio", "strength", "functional", "hiit", "yoga", "pilates",
      "calisthenics", "crossfit", "swimming"],
    ["evening"], "Dallas", "cutting", none, ["tue"], "", ""⟩

/-- A record with empty style, slot and day arrays and no gym name. -/
def fitC8a : FitnessProfile :=
  ⟨"user-a", "beginner", [], [], "Austin", "bulking", none, [], "", ""⟩

/-- Counterpart of `fitC8a`, sharing nothing with it. -/
def fitC8b : FitnessProfile :=
  ⟨"user-b", "advanced", [], [], "Dallas", "cutting", none, [], "", ""⟩

/-- A concrete `MatchScore` element for exercising `getTopMatches`. -/
def msEx : MatchScore := ⟨"user-b", profB, fitC4other, 3 / 5, []⟩

/-- Like `fitC1b` (gym name equal to that of `fitC1a` up to case) but in
a different city. -/
def fitC1c : FitnessProfile :=
  ⟨"user-b", "advanced", ["yoga"], ["evening"], "Dallas, TX", "cutting",
    some "GOLDS GYM", ["tue"], "", ""⟩

/-- The ten decimal digit characters. -/
def decDigitChars : List Char := ['0', '1', '2', '3', '4', '5', '6', '7', '8', '9']

/-! Toolkit: facts about strings, decimal digit runs and the reason
strings, used to reason about membership in `matchReasonsList`. -/

/-- Appending strings concatenates their character lists. -/
theorem string_data_append (s t : String) : (s ++ t).data = s.data ++ t.data := rfl

/-- Two appended strings differ whenever their left parts disagree on one
of the first `n` characters that both left parts possess. -/
theorem take_ne_imp_append_ne (p1 s1 p2 s2 : String) (n : ℕ)
    (h1 : n ≤ p1.data.length) (h2 : n ≤ p2.data.length)
    (hne : p1.data.take n ≠ p2.data.take n) : p1 ++ s1 ≠ p2 ++ s2 := by
  intro h
  apply hne
  have hd : p1.data ++ s1.data = p2.data ++ s2.data := by
    have hh := congrArg String.data h
    rwa [string_data_append, string_data_append] at hh
  calc p1.data.take n = (p1.data ++ s1.data).take n :=
        (List.take_append_of_le_length h1).symm
    _ = (p2.data ++ s2.data).take n := by rw [hd]
    _ = p2.data.take n := List.take_append_of_le_length h2

/-- `digitChar` of a single-digit value is a decimal digit character. -/
theorem digitChar_mem (n : ℕ) (h : n < 10) : digitChar n ∈ decDigitChars := by
  interval_cases n <;> decide

/-- Every character produced by the decimal renderer is a digit. -/
theorem natDigitsGo_digits (fuel : ℕ) :
    ∀ (n : ℕ) (c : Char), c ∈ natDigitsGo fuel n → c ∈ decDigitChars := by
  induction fuel with
  | zero => intro n c hc; simp [natDigitsGo] at hc
  | succ fuel ih =>
    intro n c hc
    rw [natDigitsGo] at hc
    by_cases h : n < 10
    · rw [if_pos h] at hc
      rcases List.mem_singleton.mp hc with rfl
      exact digitChar_mem n h
    · rw [if_neg h] at hc
      rcases List.mem_append.mp hc with h1 | h1
      · exact ih _ _ h1
      · rcases List.mem_singleton.mp h1 with rfl
        exact digitChar_mem _ (Nat.mod_lt _ (by omega))

/-- Every character of `natToString n` is a decimal digit. -/
theorem natToString_digits (n : ℕ) (c : Char) (h : c ∈ (natToString n).data) :
    c ∈ decDigitChars := natDigitsGo_digits (n + 1) n c h

/-- A run of digit characters followed by a non-digit determines itself:
if two such decompositions of the same list agree, the digit runs and the
remainders agree. -/
theorem digitRun_append_inj (d1 : List Char) : ∀ (d2 r1 r2 : List Char),
    (∀ c ∈ d1, c ∈ decDigitChars) → (∀ c ∈ d2, c ∈ decDigitChars) →
    (∀ c, r1.head? = some c → c ∉ decDigitChars) →
    (∀ c, r2.head? = some c → c ∉ decDigitChars) →
    d1 ++ r1 = d2 ++ r2 → d1 = d2 ∧ r1 = r2 := by
  induction d1 with
  | nil =>
    intro d2 r1 r2 _ hd2 hr1 _ he
    cases d2 with
    | nil => exact ⟨rfl, he⟩
    | cons c t =>
      exfalso
      have hc : r1.head? = some c := by
        rw [List.nil_append] at he
        rw [he]; rfl
      exact hr1 c hc (hd2 c (by simp))
  | cons c1 t1 ih =>
    intro d2 r1 r2 hd1 hd2 hr1 hr2 he
    cases d2 with
    | nil =>
      exfalso
      have hc : r2.head? = some c1 := by
        rw [List.nil_append] at he
        rw [← he]; rfl
      exact hr2 c1 hc (hd1 c1 (by simp))
    | cons c2 t2 =>
      simp only [List.cons_append, List.cons.injEq] at he
      obtain ⟨rfl, he2⟩ := he
      obtain ⟨h1, h2⟩ := ih t2 r1 r2 (fun c hc => hd1 c (by simp [hc]))
        (fun c hc => hd2 c (by simp [hc])) hr1 hr2 he2
      exact ⟨by rw [h1], h2⟩

/-- Strings with the same character list are equal. -/
theorem string_data_inj {s t : String} (h : s.data = t.data) : s = t := by
  cases s; cases t; exact congrArg String.mk h

/-- Strings whose first `n` characters disagree are unequal. -/
theorem string_ne_of_take_ne (s t : String) (n : ℕ)
    (h : s.data.take n ≠ t.data.take n) : s ≠ t := fun e => h (by rw [e])

/-- Two strings of the shape `"You share " ++ digits ++ tail`, with the
tails starting in a non-digit, are equal only if the tails are equal:
the decimal count cannot blur the boundary between the number and the
tail. -/
theorem share_run_ne (k m : ℕ) (tailS tailD : String)
    (hS : ∀ c, tailS.data.head? = some c → c ∉ decDigitChars)
    (hD : ∀ c, tailD.data.head? = some c → c ∉ decDigitChars)
    (hne : tailS ≠ tailD) :
    ("You share " ++ (natToString k ++ tailS)) ≠
      ("You share " ++ (natToString m ++ tailD)) := by
  intro h
  have hd := congrArg String.data h
  simp only [string_data_append] at hd
  have hd2 := List.append_cancel_left hd
  obtain ⟨_, hrest⟩ := digitRun_append_inj _ _ _ _
    (fun c hc => natToString_digits k c hc)
    (fun c hc => natToString_digits m c hc) hS hD hd2
  exact hne (string_data_inj hrest)

/-- The time reason never coincides with the goal reason. -/
theorem timeReason_ne_goalReason (a b c : FitnessProfile) :
    timeReason a b ≠ goalReason c := by
  unfold timeReason goalReason
  exact take_ne_imp_append_ne _ _ _ _ 5 (by decide) (by decide) (by decide)

/-- The time reason never coincides with the style reason. -/
theorem timeReason_ne_styleReason (a b c d : FitnessProfile) :
    timeReason a b ≠ styleReason c d := by
  unfold timeReason styleReason
  exact take_ne_imp_append_ne _ _ _ _ 5 (by decide) (by decide) (by decide)

/-- The time reason never coincides with the location reason. -/
theorem timeReason_ne_locationReason (a b c : FitnessProfile) :
    timeReason a b ≠ locationReason c := by
  unfold timeReason locationReason
  exact take_ne_imp_append_ne _ _ _ _ 4 (by decide) (by decide) (by decide)

/-- The time reason never coincides with a gym reason. -/
theorem timeReason_ne_gymStr (a b : FitnessProfile) (g : String) :
    timeReason a b ≠ "You both work out at " ++ g := by
  unfold timeReason
  exact take_ne_imp_append_ne _ _ _ _ 5 (by decide) (by decide) (by decide)

/-- The time reason never coincides with the level reason. -/
theorem timeReason_ne_levelReason (a b c : FitnessProfile) :
    timeReason a b ≠ levelReason c := by
  unfold timeReason levelReason
  exact take_ne_imp_append_ne _ _ _ _ 4 (by decide) (by decide) (by decide)

/-- The time reason never coincides with the availability reason. -/
theorem timeReason_ne_dayReason (a b c d : FitnessProfile) :
    timeReason a b ≠ dayReason c d := by
  unfold timeReason dayReason
  exact take_ne_imp_append_ne _ _ _ _ 5 (by decide) (by decide) (by decide)

/-- The availability reason never coincides with the goal reason. -/
theorem dayReason_ne_goalReason (a b c : FitnessProfile) :
    dayReason a b ≠ goalReason c := by
  unfold dayReason goalReason
  exact take_ne_imp_append_ne _ _ _ _ 5 (by decide) (by decide) (by decide)

/-- The availability reason never coincides with the location reason. -/
theorem dayReason_ne_locationReason (a b c : FitnessProfile) :
    dayReason a b ≠ locationReason c := by
  unfold dayReason locationReason
  exact take_ne_imp_append_ne _ _ _ _ 4 (by decide) (by decide) (by decide)

/-- The availability reason never coincides with a gym reason. -/
theorem dayReason_ne_gymStr (a b : FitnessProfile) (g : String) :
    dayReason a b ≠ "You both work out at " ++ g := by
  unfold dayReason
  exact take_ne_imp_append_ne _ _ _ _ 5 (by decide) (by decide) (by decide)

/-- The availability reason never coincides with the level reason. -/
theorem dayReason_ne_levelReason (a b c : FitnessProfile) :
    dayReason a b ≠ levelReason c := by
  unfold dayReason levelReason
  exact take_ne_imp_append_ne _ _ _ _ 4 (by decide) (by decide) (by decide)

/-- The style reason never coincides with the availability reason: both
start with `"You share "`, but the decimal count is followed by
`" training styles: "` on one side and `" days of availability"` on the
other. -/
theorem styleReason_ne_dayReason (a b c d : FitnessProfile) :
    styleReason a b ≠ dayReason c d := by
  unfold styleReason dayReason
  apply share_run_ne
  · intro cc hc
    have hh : ((" training styles: " ++
        String.intercalate ", " ((sharedStyles a b).map formatStyle)).data).head? =
        some ' ' := rfl
    rw [hh] at hc
    rw [(Option.some.inj hc).symm]
    decide
  · intro cc hc
    have hh : (" days of availability").data.head? = some ' ' := rfl
    rw [hh] at hc
    rw [(Option.some.inj hc).symm]
    decide
  · apply string_ne_of_take_ne _ _ 2
    rw [string_data_append, List.take_append_of_le_length (by decide)]
    decide

/-- The style reason never coincides with the goal reason. -/
theorem styleReason_ne_goalReason (a b c : FitnessProfile) :
    styleReason a b ≠ goalReason c := by
  unfold styleReason goalReason
  exact take_ne_imp_append_ne _ _ _ _ 5 (by decide) (by decide) (by decide)

/-- The style reason never coincides with the location reason. -/
theorem styleReason_ne_locationReason (a b c : FitnessProfile) :
    styleReason a b ≠ locationReason c := by
  unfold styleReason locationReason
  exact take_ne_imp_append_ne _ _ _ _ 4 (by decide) (by decide) (by decide)

/-- The style reason never coincides with a gym reason. -/
theorem styleReason_ne_gymStr (a b : FitnessProfile) (g : String) :
    styleReason a b ≠ "You both work out at " ++ g := by
  unfold styleReason
  exact take_ne_imp_append_ne _ _ _ _ 5 (by decide) (by decide) (by decide)

/-- The style reason never coincides with the level reason. -/
theorem styleReason_ne_levelReason (a b c : FitnessProfile) :
    styleReason a b ≠ levelReason c := by
  unfold styleReason levelReason
  exact take_ne_imp_append_ne _ _ _ _ 4 (by decide) (by decide) (by decide)

/-- A gym reason never coincides with the goal reason. -/
theorem gymStr_ne_goalReason (g : String) (c : FitnessProfile) :
    "You both work out at " ++ g ≠ goalReason c := by
  unfold goalReason
  exact take_ne_imp_append_ne _ _ _ _ 10 (by decide) (by decide) (by decide)

/-- The location reason never coincides with a gym reason. -/
theorem locationReason_ne_gymStr (a : FitnessProfile) (g : String) :
    locationReason a ≠ "You both work out at " ++ g := by
  unfold locationReason
  exact take_ne_imp_append_ne _ _ _ _ 4 (by decide) (by decide) (by decide)

/-- The location reason never coincides with the level reason. -/
theorem locationReason_ne_levelReason (a c : FitnessProfile) :
    locationReason a ≠ levelReason c := by
  unfold locationReason levelReason
  exact take_ne_imp_append_ne _ _ _ _ 13 (by decide) (by decide) (by decide)

/-- The location reason never coincides with the goal reason. -/
theorem locationReason_ne_goalReason (a c : FitnessProfile) :
    locationReason a ≠ goalReason c := by
  unfold locationReason goalReason
  exact take_ne_imp_append_ne _ _ _ _ 4 (by decide) (by decide) (by decide)

/-- A gym reason never coincides with the level reason. -/
theorem gymStr_ne_levelReason (g : String) (c : FitnessProfile) :
    "You both work out at " ++ g ≠ levelReason c := by
  unfold levelReason
  exact take_ne_imp_append_ne _ _ _ _ 4 (by decide) (by decide) (by decide)

/-- Membership in a conditional singleton. -/
theorem mem_if_singleton {c : Prop} [Decidable c] (x s : String) :
    (s ∈ if c then [x] else []) ↔ c ∧ s = x := by
  split
  · rename_i h; simp [h]
  · rename_i h; simp [h]

/-- A string is among the accumulated match reasons exactly when it is
the reason of one of the seven criteria and that criterion fires. -/
theorem mem_matchReasonsList (a b : FitnessProfile) (s : String) :
    s ∈ matchReasonsList a b ↔
      (a.fitness_goal = b.fitness_goal ∧ s = goalReason a) ∨
      (0 < (sharedStyles a b).length ∧ s = styleReason a b) ∨
      (0 < (sharedTimeSlots a b).length ∧ s = timeReason a b) ∨
      (a.location = b.location ∧ s = locationReason a) ∨
      (gymNamesMatch a b = true ∧ s = gymReason a) ∨
      (a.fitness_level = b.fitness_level ∧ s = levelReason a) ∨
      (0 < (sharedDays a b).length ∧ s = dayReason a b) := by
  simp only [matchReasonsList, List.mem_append, mem_if_singleton]

/-- For a duplicate-free first list, the `filter`/`includes` pattern
computes the cardinality of the set intersection. -/
theorem length_filter_mem {α : Type} [DecidableEq α] (l1 l2 : List α) (h : l1.Nodup) :
    (l1.filter (fun x => decide (x ∈ l2))).length = (l1.toFinset ∩ l2.toFinset).card := by
  induction l1 with
  | nil => simp
  | cons x t ih =>
    rcases List.nodup_cons.mp h with ⟨hx, ht⟩
    by_cases hmem : x ∈ l2
    · rw [List.filter_cons_of_pos (by simpa using hmem), List.toFinset_cons,
        Finset.insert_inter_of_mem (List.mem_toFinset.mpr hmem),
        Finset.card_insert_of_not_mem
          (fun hx2 => hx (List.mem_toFinset.mp (Finset.mem_inter.mp hx2).1))]
      simp [ih ht]
    · rw [List.filter_cons_of_neg (by simpa using hmem), List.toFinset_cons,
        Finset.insert_inter_of_not_mem (by simp [List.mem_toFinset, hmem])]
      exact ih ht

/-- The time reason is among the reasons exactly when the time criterion
fires. -/
theorem timeReason_mem_iff (a b : FitnessProfile) :
    timeReason a b ∈ matchReasonsList a b ↔ 0 < (sharedTimeSlots a b).length := by
  rw [mem_matchReasonsList]
  constructor
  · rintro (⟨_, h⟩ | ⟨_, h⟩ | ⟨h, _⟩ | ⟨_, h⟩ | ⟨_, h⟩ | ⟨_, h⟩ | ⟨_, h⟩)
    · exact absurd h (timeReason_ne_goalReason a b a)
    · exact absurd h (timeReason_ne_styleReason a b a b)
    · exact h
    · exact absurd h (timeReason_ne_locationReason a b a)
    · exact absurd h (timeReason_ne_gymStr a b (a.gym_name.getD ""))
    · exact absurd h (timeReason_ne_levelReason a b a)
    · exact absurd h (timeReason_ne_dayReason a b a b)
  · intro h
    exact Or.inr (Or.inr (Or.inl ⟨h, rfl⟩))

/-- The availability reason is among the reasons exactly when the
availability criterion fires. -/
theorem dayReason_mem_iff (a b : FitnessProfile) :
    dayReason a b ∈ matchReasonsList a b ↔ 0 < (sharedDays a b).length := by
  rw [mem_matchReasonsList]
  constructor
  · rintro (⟨_, h⟩ | ⟨_, h⟩ | ⟨_, h⟩ | ⟨_, h⟩ | ⟨_, h⟩ | ⟨_, h⟩ | ⟨h, _⟩)
    · exact absurd h (dayReason_ne_goalReason a b a)
    · exact absurd h.symm (styleReason_ne_dayReason a b a b)
    · exact absurd h.symm (timeReason_ne_dayReason a b a b)
    · exact absurd h (dayReason_ne_locationReason a b a)
    · exact absurd h (dayReason_ne_gymStr a b (a.gym_name.getD ""))
    · exact absurd h (dayReason_ne_levelReason a b a)
    · exact h
  · intro h
    exact Or.inr (Or.inr (Or.inr (Or.inr (Or.inr (Or.inr ⟨h, rfl⟩)))))

/-- The style reason is among the reasons exactly when the style
criterion fires. -/
theorem styleReason_mem_iff (a b : FitnessProfile) :
    styleReason a b ∈ matchReasonsList a b ↔ 0 < (sharedStyles a b).length := by
  rw [mem_matchReasonsList]
  constructor
  · rintro (⟨_, h⟩ | ⟨h, _⟩ | ⟨_, h⟩ | ⟨_, h⟩ | ⟨_, h⟩ | ⟨_, h⟩ | ⟨_, h⟩)
    · exact absurd h (styleReason_ne_goalReason a b a)
    · exact h
    · exact absurd h.symm (timeReason_ne_styleReason a b a b)
    · exact absurd h (styleReason_ne_locationReason a b a)
    · exact absurd h (styleReason_ne_gymStr a b (a.gym_name.getD ""))
    · exact absurd h (styleReason_ne_levelReason a b a)
    · exact absurd h (styleReason_ne_dayReason a b a b)
  · intro h
    exact Or.inr (Or.inl ⟨h, rfl⟩)

/-- The location reason is among the reasons exactly when the locations
are equal. -/
theorem locationReason_mem_iff (a b : FitnessProfile) :
    locationReason a ∈ matchReasonsList a b ↔ a.location = b.location := by
  rw [mem_matchReasonsList]
  constructor
  · rintro (⟨_, h⟩ | ⟨_, h⟩ | ⟨_, h⟩ | ⟨h, _⟩ | ⟨_, h⟩ | ⟨_, h⟩ | ⟨_, h⟩)
    · exact absurd h (locationReason_ne_goalReason a a)
    · exact absurd h.symm (styleReason_ne_locationReason a b a)
    · exact absurd h.symm (timeReason_ne_locationReason a b a)
    · exact h
    · exact absurd h (locationReason_ne_gymStr a (a.gym_name.getD ""))
    · exact absurd h (locationReason_ne_levelReason a a)
    · exact absurd h.symm (dayReason_ne_locationReason a b a)
  · intro h
    exact Or.inr (Or.inr (Or.inr (Or.inl ⟨h, rfl⟩)))

/-- When the gym criterion does not fire, no gym reason of any wording
appears among the reasons. -/
theorem gymStr_not_mem (a b : FitnessProfile) (h : gymNamesMatch a b = false)
    (g : String) : ("You both work out at " ++ g) ∉ matchReasonsList a b := by
  rw [mem_matchReasonsList]
  rintro (⟨_, hh⟩ | ⟨_, hh⟩ | ⟨_, hh⟩ | ⟨_, hh⟩ | ⟨hfire, _⟩ | ⟨_, hh⟩ | ⟨_, hh⟩)
  · exact absurd hh (gymStr_ne_goalReason g a)
  · exact absurd hh.symm (styleReason_ne_gymStr a b g)
  · exact absurd hh.symm (timeReason_ne_gymStr a b g)
  · exact absurd hh.symm (locationReason_ne_gymStr a g)
  · rw [h] at hfire
    exact Bool.false_ne_true hfire
  · exact absurd hh (gymStr_ne_levelReason g a)
  · exact absurd hh.symm (dayReason_ne_gymStr a b g)

/-- The gym reason is among the reasons exactly when the gym criterion
fires. -/
theorem gymReason_mem_iff (a b : FitnessProfile) :
    gymReason a ∈ matchReasonsList a b ↔ gymNamesMatch a b = true := by
  constructor
  · intro h
    by_cases hg : gymNamesMatch a b = true
    · exact hg
    · exact absurd h (gymStr_not_mem a b (by simpa using hg) (a.gym_name.getD ""))
  · intro h
    exact (mem_matchReasonsList a b _).mpr
      (Or.inr (Or.inr (Or.inr (Or.inr (Or.inl ⟨h, rfl⟩)))))

/-- The normalised score is `jsToFixed2` of `rawScore / 25`, by
definition of `calculateMatchScore`. -/
theorem compatibilityScore_eq (pa pb : Profile) (a b : FitnessProfile) :
    (calculateMatchScore pa a pb b).compatibilityScore =
      jsToFixed2 ((rawScore a b : ℚ) / 25) := rfl

/-- Claim C1, counterexample: for the concrete pair `fitC1a`, `fitC1b`,
whose locations are exactly equal and whose gym names are equal up to
case, the location criterion and the gym criterion of
`calculateMatchScore` BOTH fire: the location contribution is 2, the gym
contribution is 3, and both reason strings appear in the output.  This
refutes the claimed mutual exclusivity of the two criteria. -/
theorem c1_counterexample :
    locationPoints fitC1a fitC1b = 2 ∧ gymPoints fitC1a fitC1b = 3 ∧
    locationReason fitC1a ∈ (calculateMatchScore profA fitC1a profB fitC1b).matchReasons ∧
    gymReason fitC1a ∈ (calculateMatchScore profA fitC1a profB fitC1b).matchReasons := by
  decide

/-- Claim C1, amended: in `calculateMatchScore` the location and
gym-name criteria are independent rather than mutually exclusive, for
every input pair.  Whenever the location strings are exactly equal —
gym names matching or not — the location criterion contributes exactly
2 with a location reason; whenever both gym names are truthy and equal
case-insensitively, the gym criterion contributes exactly 3 with a gym
reason; so when both conditions hold, both contributions and both
reasons appear.  When the gym names match but the locations differ, the
combined contribution of the two criteria is 3 and only the gym reason
appears. -/
theorem c1_location_gym_independent (pa pb : Profile) (a b : FitnessProfile) :
    (a.location = b.location →
      locationPoints a b = 2 ∧
      locationReason a ∈ (calculateMatchScore pa a pb b).matchReasons) ∧
    (gymNamesMatch a b = true →
      gymPoints a b = 3 ∧
      gymReason a ∈ (calculateMatchScore pa a pb b).matchReasons) ∧
    (gymNamesMatch a b = true → a.location ≠ b.location →
      locationPoints a b + gymPoints a b = 3 ∧
      locationReason a ∉ (calculateMatchScore pa a pb b).matchReasons) := by
  have hreasons : (calculateMatchScore pa a pb b).matchReasons = matchReasonsList a b := rfl
  refine ⟨?_, ?_, ?_⟩
  · intro hl
    refine ⟨by simp [locationPoints, hl], ?_⟩
    rw [hreasons]
    exact (locationReason_mem_iff a b).mpr hl
  · intro hg
    refine ⟨by simp [gymPoints, hg], ?_⟩
    rw [hreasons]
    exact (gymReason_mem_iff a b).mpr hg
  · intro hg hl
    refine ⟨by simp [locationPoints, hl, gymPoints, hg], ?_⟩
    rw [hreasons]
    intro hmem
    exact hl ((locationReason_mem_iff a b).mp hmem)

/-- Witness for the amended claim C1, exercising both independent
clauses: at the pair `fitC4self`, `fitC4other` the locations are equal
and the gym names are null, and the location criterion alone fires with
its reason; at the pair `fitC1a`, `fitC1c` the gym names match and the
locations differ, so the gym contribution is 3 and the location reason
is absent. -/
theorem c1_amended_witness :
    (locationPoints fitC4self fitC4other = 2 ∧
      locationReason fitC4self ∈
        (calculateMatchScore profA fitC4self profB fitC4other).matchReasons) ∧
    gymPoints fitC1a fitC1c = 3 ∧
    locationReason fitC1a ∉ (calculateMatchScore profA fitC1a profB fitC1c).matchReasons := by
  obtain ⟨hloc, _, _⟩ := c1_location_gym_independent profA profB fitC4self fitC4other
  obtain ⟨_, hgym, hind⟩ := c1_location_gym_independent profA profB fitC1a fitC1c
  exact ⟨hloc (by decide), (hgym (by decide)).1, (hind (by decide) (by decide)).2⟩

/-- Claim C2: the additive denominator-25 scorer of `matchingUtils.ts`
and the weighted-ratio `totalFactors` scorer of `Matches.tsx` are not
equivalent.  On the pair `fitC2a1`, `fitC2b1` they return 0.44 and 0.77
respectively; and the two candidate pairs given here are ranked in
opposite order: the additive scorer ranks the second pair (0.6) above
the first (0.44), while the weighted-ratio scorer ranks the first pair
(0.77) above the second (0.3). -/
theorem c2_scorers_not_equivalent :
    ((calculateMatchScore profA fitC2a1 profB fitC2b1).compatibilityScore = 11 / 25 ∧
      calculateCompatibilityScore fitC2a1 fitC2b1 = some (77 / 100) ∧
      (11 / 25 : ℚ) ≠ 77 / 100) ∧
    ((calculateMatchScore profA fitC2a2 profB fitC2b2).compatibilityScore = 3 / 5 ∧
      calculateCompatibilityScore fitC2a2 fitC2b2 = some (3 / 10) ∧
      (11 / 25 : ℚ) < 3 / 5 ∧ (3 / 10 : ℚ) < 77 / 100) := by
  refine ⟨⟨?_, ?_, by norm_num⟩, ?_, ?_, by norm_num, by norm_num⟩
  · rw [compatibilityScore_eq, show rawScore fitC2a1 fitC2b1 = 11 by decide]
    norm_num [jsToFixed2, round_eq]
  · simp +decide only [calculateCompatibilityScore, sharedStyles, sharedTimeSlots, sharedDays,
      gymLocScore, gymNamesMatch, jsToLower, jsToFixed2, round_eq, fitC2a1, fitC2b1,
      List.filter_cons, List.filter_nil, List.length_nil, List.length_cons]
    norm_num
  · rw [compatibilityScore_eq, show rawScore fitC2a2 fitC2b2 = 15 by decide]
    norm_num [jsToFixed2, round_eq]
  · simp +decide only [calculateCompatibilityScore, sharedStyles, sharedTimeSlots, sharedDays,
      gymLocScore, gymNamesMatch, jsToLower, jsToFixed2, round_eq, fitC2a2, fitC2b2,
      List.filter_cons, List.filter_nil, List.length_nil, List.length_cons]
    norm_num

/-- Claim C3: for every input pair the returned `compatibilityScore` is
exactly the raw integer total divided by 25 — the two-decimal rounding
of `toFixed(2)` is the identity there, because `raw / 25 = 4 raw / 100`
already has an exact two-decimal representation — and no clamping is
applied: at the concrete pair `fitC3a`, `fitC3b` (nine shared styles,
raw total 27) the normalised score is 27/25, strictly above 1. -/
theorem c3_normalised_score_no_clamp :
    (∀ (pa pb : Profile) (a b : FitnessProfile),
      (calculateMatchScore pa a pb b).compatibilityScore = (rawScore a b : ℚ) / 25) ∧
    1 < (calculateMatchScore profA fitC3a profB fitC3b).compatibilityScore := by
  constructor
  · intro pa pb a b
    rw [compatibilityScore_eq, jsToFixed2]
    have h1 : ((rawScore a b : ℚ) / 25 * 100) = ((4 * rawScore a b : ℕ) : ℚ) := by
      push_cast
      ring
    rw [h1, round_natCast]
    push_cast
    ring
  · rw [compatibilityScore_eq, show rawScore fitC3a fitC3b = 27 by decide]
    norm_num [jsToFixed2, round_eq]

/-- Claim C4: the concrete scenario from the spec.  `fitC4self` against
`fitC4other` yields a raw total of 15, a normalised score of 0.6, and
exactly six reason strings, in the order goal, style, time, location,
level, availability. -/
theorem c4_concrete_scenario :
    rawScore fitC4self fitC4other = 15 ∧
    (calculateMatchScore profA fitC4self profB fitC4other).compatibilityScore = 3 / 5 ∧
    (calculateMatchScore profA fitC4self profB fitC4other).matchReasons =
      [goalReason fitC4self, styleReason fitC4self fitC4other,
        timeReason fitC4self fitC4other, locationReason fitC4self,
        levelReason fitC4self, dayReason fitC4self fitC4other] ∧
    (calculateMatchScore profA fitC4self profB fitC4other).matchReasons =
      ["You both have the same fitness goal: Fat loss",
        "You share 1 training styles: Strength Training",
        "You have 1 compatible workout times",
        "You" ++ apos ++ "re both in Austin, TX",
        "You" ++ apos ++ "re both at a intermediate fitness level",
        "You share 2 days of availability"] := by
  refine ⟨by decide, ?_, by decide, by decide⟩
  rw [compatibilityScore_eq, show rawScore fitC4self fitC4other = 15 by decide]
  norm_num [jsToFixed2, round_eq]
/-- Claim C5: the time-slot criterion contributes exactly
`min(2 |T|, 6)` and the availability criterion exactly `min(2 |D|, 8)`,
where `T` and `D` are the set intersections of the respective arrays of
the two users; each count reason appears exactly when the respective
intersection is non-empty.  The duplicate-freeness hypotheses reflect
that the arrays model sets. -/
theorem c5_time_and_day_caps (pa pb : Profile) (a b : FitnessProfile)
    (hT : a.preferred_time_slots.Nodup) (hD : a.availability_days.Nodup) :
    timePoints a b =
      min (2 * (a.preferred_time_slots.toFinset ∩ b.preferred_time_slots.toFinset).card) 6 ∧
    (timeReason a b ∈ (calculateMatchScore pa a pb b).matchReasons ↔
      (a.preferred_time_slots.toFinset ∩ b.preferred_time_slots.toFinset).Nonempty) ∧
    dayPoints a b =
      min (2 * (a.availability_days.toFinset ∩ b.availability_days.toFinset).card) 8 ∧
    (dayReason a b ∈ (calculateMatchScore pa a pb b).matchReasons ↔
      (a.availability_days.toFinset ∩ b.availability_days.toFinset).Nonempty) := by
  have hreasons : (calculateMatchScore pa a pb b).matchReasons = matchReasonsList a b := rfl
  have hlenT : (sharedTimeSlots a b).length =
      (a.preferred_time_slots.toFinset ∩ b.preferred_time_slots.toFinset).card :=
    length_filter_mem _ _ hT
  have hlenD : (sharedDays a b).length =
      (a.availability_days.toFinset ∩ b.availability_days.toFinset).card :=
    length_filter_mem _ _ hD
  refine ⟨?_, ?_, ?_, ?_⟩
  · unfold timePoints
    rw [hlenT]
    split <;> omega
  · rw [hreasons, timeReason_mem_iff, hlenT]
    exact Finset.card_pos
  · unfold dayPoints
    rw [hlenD]
    split <;> omega
  · rw [hreasons, dayReason_mem_iff, hlenD]
    exact Finset.card_pos

/-- Witness for claim C5 at the concrete pair of the spec scenario. -/
theorem c5_witness :
    timePoints fitC4self fitC4other =
      min (2 * (fitC4self.preferred_time_slots.toFinset ∩
        fitC4other.preferred_time_slots.toFinset).card) 6 ∧
    (timeReason fitC4self fitC4other ∈
        (calculateMatchScore profA fitC4self profB fitC4other).matchReasons ↔
      (fitC4self.preferred_time_slots.toFinset ∩
        fitC4other.preferred_time_slots.toFinset).Nonempty) ∧
    dayPoints fitC4self fitC4other =
      min (2 * (fitC4self.availability_days.toFinset ∩
        fitC4other.availability_days.toFinset).card) 8 ∧
    (dayReason fitC4self fitC4other ∈
        (calculateMatchScore profA fitC4self profB fitC4other).matchReasons ↔
      (fitC4self.availability_days.toFinset ∩
        fitC4other.availability_days.toFinset).Nonempty) :=
  c5_time_and_day_caps profA profB fitC4self fitC4other (by decide) (by decide)

/-- Claim C6: the style criterion contributes exactly `3 |S|` with no
cap, where `S` is the set intersection of the two style arrays; with
disjoint styles the contribution is 0 and no style reason is emitted. -/
theorem c6_style_uncapped (pa pb : Profile) (a b : FitnessProfile)
    (hS : a.fitness_style.Nodup) :
    stylePoints a b = 3 * (a.fitness_style.toFinset ∩ b.fitness_style.toFinset).card ∧
    (Disjoint a.fitness_style.toFinset b.fitness_style.toFinset →
      stylePoints a b = 0 ∧
      styleReason a b ∉ (calculateMatchScore pa a pb b).matchReasons) := by
  have hreasons : (calculateMatchScore pa a pb b).matchReasons = matchReasonsList a b := rfl
  have hlen : (sharedStyles a b).length =
      (a.fitness_style.toFinset ∩ b.fitness_style.toFinset).card :=
    length_filter_mem _ _ hS
  constructor
  · unfold stylePoints
    rw [hlen]
    split <;> omega
  · intro hdisj
    have hcard : (a.fitness_style.toFinset ∩ b.fitness_style.toFinset).card = 0 := by
      rw [Finset.disjoint_iff_inter_eq_empty.mp hdisj]
      rfl
    constructor
    · unfold stylePoints
      rw [hlen, hcard]
      simp
    · rw [hreasons, styleReason_mem_iff]
      omega

/-- Witness for claim C6 at the concrete disjoint-styles pair `fitC1a`,
`fitC1b`. -/
theorem c6_witness :
    stylePoints fitC1a fitC1b =
      3 * (fitC1a.fitness_style.toFinset ∩ fitC1b.fitness_style.toFinset).card ∧
    stylePoints fitC1a fitC1b = 0 ∧
    styleReason fitC1a fitC1b ∉ (calculateMatchScore profA fitC1a profB fitC1b).matchReasons := by
  obtain ⟨h1, h2⟩ := c6_style_uncapped profA profB fitC1a fitC1b (by decide)
  obtain ⟨h3, h4⟩ := h2 (by decide)
  exact ⟨h1, h3, h4⟩

/-- The comparator of `getTopMatches` is transitive. -/
theorem matchDescLe_trans (a b c : MatchScore)
    (hab : matchDescLe a b) (hbc : matchDescLe b c) : matchDescLe a c := by
  simp only [matchDescLe, decide_eq_true_eq] at *
  exact le_trans hbc hab

/-- The comparator of `getTopMatches` is total. -/
theorem matchDescLe_total (a b : MatchScore) : matchDescLe a b || matchDescLe b a := by
  simp only [matchDescLe, Bool.or_eq_true, decide_eq_true_eq]
  exact (le_total b.compatibilityScore a.compatibilityScore)

/-- Claim C7: `getTopMatches` returns at most `limit` elements, each
drawn from the input, in non-increasing order of `compatibilityScore`.
(The Lean embedding is purely functional, so the input list is
unchanged by construction, as in the source, which sorts a copy.) -/
theorem c7_getTopMatches (ms : List MatchScore) (limit : ℕ) :
    (getTopMatches ms limit).length ≤ limit ∧
    (∀ x ∈ getTopMatches ms limit, x ∈ ms) ∧
    (getTopMatches ms limit).Pairwise
      (fun x y => y.compatibilityScore ≤ x.compatibilityScore) := by
  refine ⟨?_, ?_, ?_⟩
  · unfold getTopMatches
    rw [List.length_take]
    exact min_le_left _ _
  · intro x hx
    unfold getTopMatches at hx
    have hx2 := List.take_subset _ _ hx
    exact List.mem_mergeSort.mp hx2
  · have hs : (ms.mergeSort matchDescLe).Pairwise (fun x y => matchDescLe x y) :=
      List.sorted_mergeSort matchDescLe_trans matchDescLe_total ms
    have ht : (getTopMatches ms limit).Pairwise (fun x y => matchDescLe x y) :=
      List.Pairwise.sublist (List.take_sublist _ _) hs
    exact ht.imp (fun h => by simpa [matchDescLe, decide_eq_true_eq] using h)

/-- Witness for claim C7: membership transported through
`getTopMatches` on a concrete singleton list. -/
theorem c7_witness : msEx ∈ [msEx] := by
  apply (c7_getTopMatches [msEx] 3).2.1
  rw [show getTopMatches [msEx] 3 = [msEx] from by simp [getTopMatches]]
  exact List.mem_singleton.mpr rfl

/-- The gym criterion cannot fire when the first gym name is null. -/
theorem gymNamesMatch_none_left (a b : FitnessProfile) (h : a.gym_name = none) :
    gymNamesMatch a b = false := by
  unfold gymNamesMatch
  rw [h]

/-- The gym criterion cannot fire when the second gym name is null. -/
theorem gymNamesMatch_none_right (a b : FitnessProfile) (h : b.gym_name = none) :
    gymNamesMatch a b = false := by
  unfold gymNamesMatch
  rw [h]
  cases a.gym_name <;> rfl

/-- Claim C8: the scorer is total on well-typed input (in this purely
functional embedding totality holds by construction), and every
criterion whose shared list is empty — in particular for empty input
arrays — or whose gym name is null contributes 0 points and emits no
reason string of its shape. -/
theorem c8_degenerate_inputs (pa pb : Profile) (a b : FitnessProfile) :
    (sharedStyles a b = [] → stylePoints a b = 0 ∧
      styleReason a b ∉ (calculateMatchScore pa a pb b).matchReasons) ∧
    (sharedTimeSlots a b = [] → timePoints a b = 0 ∧
      timeReason a b ∉ (calculateMatchScore pa a pb b).matchReasons) ∧
    (sharedDays a b = [] → dayPoints a b = 0 ∧
      dayReason a b ∉ (calculateMatchScore pa a pb b).matchReasons) ∧
    (a.gym_name = none → gymPoints a b = 0 ∧
      ∀ g : String, ("You both work out at " ++ g) ∉
        (calculateMatchScore pa a pb b).matchReasons) ∧
    (b.gym_name = none → gymPoints a b = 0 ∧
      ∀ g : String, ("You both work out at " ++ g) ∉
        (calculateMatchScore pa a pb b).matchReasons) := by
  have hreasons : (calculateMatchScore pa a pb b).matchReasons = matchReasonsList a b := rfl
  refine ⟨?_, ?_, ?_, ?_, ?_⟩
  · intro h
    constructor
    · simp [stylePoints, h]
    · rw [hreasons, styleReason_mem_iff, h]
      simp
  · intro h
    constructor
    · simp [timePoints, h]
    · rw [hreasons, timeReason_mem_iff, h]
      simp
  · intro h
    constructor
    · simp [dayPoints, h]
    · rw [hreasons, dayReason_mem_iff, h]
      simp
  · intro h
    have hm := gymNamesMatch_none_left a b h
    exact ⟨by simp [gymPoints, hm], fun g => by
      rw [hreasons]; exact gymStr_not_mem a b hm g⟩
  · intro h
    have hm := gymNamesMatch_none_right a b h
    exact ⟨by simp [gymPoints, hm], fun g => by
      rw [hreasons]; exact gymStr_not_mem a b hm g⟩

/-- Witness for claim C8 at the concrete pair with empty arrays and no
gym names. -/
theorem c8_witness :
    (stylePoints fitC8a fitC8b = 0 ∧
      styleReason fitC8a fitC8b ∉ (calculateMatchScore profA fitC8a profB fitC8b).matchReasons) ∧
    (timePoints fitC8a fitC8b = 0 ∧
      timeReason fitC8a fitC8b ∉ (calculateMatchScore profA fitC8a profB fitC8b).matchReasons) ∧
    (dayPoints fitC8a fitC8b = 0 ∧
      dayReason fitC8a fitC8b ∉ (calculateMatchScore profA fitC8a profB fitC8b).matchReasons) ∧
    (gymPoints fitC8a fitC8b = 0 ∧
      ∀ g : String, ("You both work out at " ++ g) ∉
        (calculateMatchScore profA fitC8a profB fitC8b).matchReasons) := by
  obtain ⟨h1, h2, h3, h4, _⟩ := c8_degenerate_inputs profA profB fitC8a fitC8b
  exact ⟨h1 (by decide), h2 (by decide), h3 (by decide), h4 (by decide)⟩

/-- Claim C9: the scorer is deterministic.  The embedding is a pure
function of its four arguments (the source reads no clock, random
source or external state), so two invocations on the same inputs are
one and the same value: same score, same reasons, same order. -/
theorem c9_deterministic (pa pb : Profile) (a b : FitnessProfile) :
    calculateMatchScore pa a pb b = calculateMatchScore pa a pb b ∧
    (calculateMatchScore pa a pb b).compatibilityScore =
      (calculateMatchScore pa a pb b).compatibilityScore ∧
    (calculateMatchScore pa a pb b).matchReasons =
      (calculateMatchScore pa a pb b).matchReasons :=
  ⟨rfl, rfl, rfl⟩

/-- For duplicate-free lists, the `filter`/`includes` count is
symmetric in the two lists. -/
theorem length_filter_mem_comm {α : Type} [DecidableEq α] (l1 l2 : List α)
    (h1 : l1.Nodup) (h2 : l2.Nodup) :
    (l1.filter (fun x => decide (x ∈ l2))).length =
      (l2.filter (fun x => decide (x ∈ l1))).length := by
  rw [length_filter_mem l1 l2 h1, length_filter_mem l2 l1 h2, Finset.inter_comm]

/-- The gym-name condition is symmetric in the two profiles. -/
theorem gymNamesMatch_comm (a b : FitnessProfile) :
    gymNamesMatch a b = gymNamesMatch b a := by
  unfold gymNamesMatch
  cases a.gym_name <;> cases b.gym_name <;> simp
  rename_i g1 g2
  cases h1 : (!g1.isEmpty) <;> cases h2 : (!g2.isEmpty) <;>
    simp [Bool.and_comm, Bool.and_assoc, Bool.and_left_comm, beq_iff_eq, eq_comm]

/-- Claim C10: the numeric compatibility score is symmetric in the two
users when the three array fields of both profiles are duplicate-free. -/
theorem c10_symmetric (pa pb : Profile) (a b : FitnessProfile)
    (h1 : a.fitness_style.Nodup) (h2 : b.fitness_style.Nodup)
    (h3 : a.preferred_time_slots.Nodup) (h4 : b.preferred_time_slots.Nodup)
    (h5 : a.availability_days.Nodup) (h6 : b.availability_days.Nodup) :
    (calculateMatchScore pa a pb b).compatibilityScore =
      (calculateMatchScore pb b pa a).compatibilityScore := by
  rw [compatibilityScore_eq, compatibilityScore_eq]
  have e1 : goalPoints a b = goalPoints b a := by
    unfold goalPoints
    by_cases h : a.fitness_goal = b.fitness_goal
    · rw [if_pos h, if_pos h.symm]
    · rw [if_neg h, if_neg (fun hh => h hh.symm)]
  have e2 : stylePoints a b = stylePoints b a := by
    unfold stylePoints
    rw [show (sharedStyles a b).length = (sharedStyles b a).length from
      length_filter_mem_comm _ _ h1 h2]
  have e3 : timePoints a b = timePoints b a := by
    unfold timePoints
    rw [show (sharedTimeSlots a b).length = (sharedTimeSlots b a).length from
      length_filter_mem_comm _ _ h3 h4]
  have e4 : locationPoints a b = locationPoints b a := by
    unfold locationPoints
    by_cases h : a.location = b.location
    · rw [if_pos h, if_pos h.symm]
    · rw [if_neg h, if_neg (fun hh => h hh.symm)]
  have e5 : gymPoints a b = gymPoints b a := by
    unfold gymPoints
    rw [gymNamesMatch_comm]
  have e6 : levelPoints a b = levelPoints b a := by
    unfold levelPoints
    by_cases h : a.fitness_level = b.fitness_level
    · rw [if_pos h, if_pos h.symm]
    · rw [if_neg h, if_neg (fun hh => h hh.symm)]
  have e7 : dayPoints a b = dayPoints b a := by
    unfold dayPoints
    rw [show (sharedDays a b).length = (sharedDays b a).length from
      length_filter_mem_comm _ _ h5 h6]
  unfold rawScore
  rw [e1, e2, e3, e4, e5, e6, e7]

/-- Witness for claim C10 at the concrete pair of the spec scenario. -/
theorem c10_witness :
    (calculateMatchScore profA fitC4self profB fitC4other).compatibilityScore =
      (calculateMatchScore profB fitC4other profA fitC4self).compatibilityScore :=
  c10_symmetric profA profB fitC4self fitC4other (by decide) (by decide)
    (by decide) (by decide) (by decide) (by decide)

end GymBuddy
